import Mathlib

/-!
Shallow embedding of the real-time collaboration core of the
collaborative-workspace repository: the `CollaborationHandler` class
(socket event handlers `handleDocumentJoin`, `handleDocumentLeave`,
`handleDocumentEdit`, `handleCursorPosition`, `handleTypingIndicator`,
`handleDisconnection`, and the Redis subscription fan-out in
`setupRedisSubscriptions`), together with the Mongoose `Document` model.

JavaScript `Map`s are embedded as association lists with first-match
lookup; JavaScript `Set`s as duplicate-free lists with insertion-order
append.  Each `await`-ed external call (Mongo `findById`/`save`, Redis
`sAdd`/`sRem`/`sMembers`, Redis `publish`) may reject; a rejection jumps
to the enclosing `catch` block, keeping every state mutation performed
before the failing call.  A `Faults` record injects those rejections.
Socket emissions and relay publishes are collected as an `Emit` trace.
-/

namespace Collab

/-- First-match lookup in an association list (JS `Map.get` / `Map.has`). -/
def mapFind? {α : Type} (m : List (String × α)) (k : String) : Option α :=
  match m with
  | [] => none
  | (k2, v) :: rest => if k2 == k then some v else mapFind? rest k

/-- JS `Map.set`: replace the binding in place if the key exists, else append. -/
def mapSet {α : Type} (m : List (String × α)) (k : String) (v : α) : List (String × α) :=
  match m with
  | [] => [(k, v)]
  | (k2, w) :: rest => if k2 == k then (k2, v) :: rest else (k2, w) :: mapSet rest k v

/-- JS `Map.delete`. -/
def mapDelete {α : Type} (m : List (String × α)) (k : String) : List (String × α) :=
  match m with
  | [] => []
  | (k2, w) :: rest => if k2 == k then mapDelete rest k else (k2, w) :: mapDelete rest k

/-- JS `Set.add` (also Redis `sAdd` on the modelled set): no-op when present,
else append in insertion order. -/
def setAdd {α : Type} [BEq α] (s : List α) (x : α) : List α :=
  if s.contains x then s else s ++ [x]

/-- JS `Set.delete` (also Redis `sRem`). -/
def setRemove {α : Type} [BEq α] (s : List α) (x : α) : List α :=
  s.filter (fun y => !(y == x))

/-- Identity bound to a socket at handshake (`socket.user`). -/
structure Identity where
  userId : Nat
  username : String
deriving Repr, DecidableEq

/-- An entry of the Mongoose document schema's `collaborators` array. -/
structure Collaborator where
  userId : Nat
  username : String
  permission : String
deriving Repr, DecidableEq

/-- The document schema's `lastEditedBy` subdocument; the `Date` is a tick. -/
structure LastEdit where
  userId : Nat
  username : String
  timestamp : Nat
deriving Repr, DecidableEq

/-- The Mongoose `Document` model (fields the collaboration core touches,
plus the remaining schema fields). -/
structure Document where
  title : String
  content : String := ""
  ownerId : Nat
  ownerUsername : String
  collaborators : List Collaborator := []
  isPublic : Bool := false
  folder : String := "root"
  tags : List String := []
  version : Nat := 1
  lastEditedBy : Option LastEdit := none
deriving Repr, DecidableEq

/-- A socket.io connection as the handler sees it: `socket.id`,
`socket.user`, and the `socket.currentDocument` field the handler manages. -/
structure Socket where
  id : String
  user : Identity
  currentDocument : Option String := none
deriving Repr, DecidableEq

/-- Payloads of the messages the handler emits or publishes. -/
inductive Msg where
  | errorMsg (message : String)
  | documentContent (documentId : String) (content : String) (title : String) (version : Nat)
  | userPresence (documentId : String) (userId : Nat) (username : String)
      (action : String) (activeUsers : List Nat)
  | documentUpdate (documentId : String) (content : String) (version : Nat)
      (userId : Nat) (username : String) (timestamp : Nat) (socketId : String)
  | cursorMove (documentId : String) (userId : Nat) (username : String)
      (position : Nat) (socketId : String)
  | userTyping (userId : Nat) (username : String) (isTyping : Bool)
deriving Repr, DecidableEq

/-- One emission step of a handler: `socket.emit` (to the sender),
`socket.to(room).emit` (room minus sender), `io.to(room).emit` (whole room),
or `redisPub.publish` (to the relay). -/
inductive Emit where
  | toSender (m : Msg)
  | toRoomExceptSender (documentId : String) (m : Msg)
  | toRoom (documentId : String) (m : Msg)
  | publish (channel : String) (m : Msg)
deriving Repr, DecidableEq

/-- Which `await`-ed external calls reject during one handler invocation. -/
structure Faults where
  findFails : Bool := false
  saveFails : Bool := false
  sAddFails : Bool := false
  sRemFails : Bool := false
  sMembersFails : Bool := false
  publishFails : Bool := false
deriving Repr, DecidableEq

/-- All external calls succeed. -/
def noFaults : Faults := {}

/-- Per-instance handler state plus the external stores it talks to:
`this.activeUsers` (documentId -> Set of userIds), the socket.io rooms of
this instance, the Redis presence sets `document:<id>:users`, and the
document store. -/
structure HState where
  activeUsers : List (String × List Nat)
  rooms : List (String × List String)
  presence : List (String × List Nat)
  docs : List (String × Document)
deriving Repr, DecidableEq

/-- Members of a socket.io room on this instance. -/
def roomMembers (rooms : List (String × List String)) (documentId : String) : List String :=
  (mapFind? rooms documentId).getD []

/-- `socket.join(documentId)`. -/
def roomJoin (rooms : List (String × List String)) (documentId : String)
    (socketId : String) : List (String × List String) :=
  mapSet rooms documentId (setAdd (roomMembers rooms documentId) socketId)

/-- `socket.leave(documentId)`. -/
def roomLeave (rooms : List (String × List String)) (documentId : String)
    (socketId : String) : List (String × List String) :=
  match mapFind? rooms documentId with
  | none => rooms
  | some members => mapSet rooms documentId (setRemove members socketId)

/-- The three `activeUsers` statements of `handleDocumentJoin`: create the
entry when missing (`if (!this.activeUsers.has(documentId)) set(new Set())`),
then `get(documentId).add(userId)`. -/
def activeUsersAdd (m : List (String × List Nat)) (documentId : String)
    (userId : Nat) : List (String × List Nat) :=
  let m1 := if (mapFind? m documentId).isSome then m else mapSet m documentId []
  mapSet m1 documentId (setAdd ((mapFind? m1 documentId).getD []) userId)

/-- The `activeUsers` statements of `handleDocumentLeave`: when the entry
exists, `delete(userId)`, and drop the entry when its set became empty. -/
def activeUsersRemove (m : List (String × List Nat)) (documentId : String)
    (userId : Nat) : List (String × List Nat) :=
  match mapFind? m documentId with
  | none => m
  | some s =>
    let s1 := setRemove s userId
    if s1.isEmpty then mapDelete m documentId
    else mapSet m documentId s1

/-- The access check of `handleDocumentJoin`: owner, any collaborator, or
public document. -/
def joinAccess (document : Document) (userId : Nat) : Bool :=
  document.ownerId == userId
    || document.collaborators.any (fun c => c.userId == userId)
    || document.isPublic

/-- The write-permission check of `handleDocumentEdit`: owner, or a
collaborator whose permission is write or admin. -/
def editWriteAccess (document : Document) (userId : Nat) : Bool :=
  let isOwner := document.ownerId == userId
  let collaborator := document.collaborators.find? (fun c => c.userId == userId)
  isOwner ||
    (match collaborator with
     | some c => c.permission == "write" || c.permission == "admin"
     | none => false)

/-- `CollaborationHandler.handleDocumentJoin`.  Returns the new state, the
socket (with its `currentDocument` field as the handler left it), and the
emission trace, mirroring the statement order of the source. -/
def handleDocumentJoin (f : Faults) (st : HState) (sock : Socket)
    (documentId : String) : HState × Socket × List Emit :=
  if f.findFails then
    (st, sock, [Emit.toSender (Msg.errorMsg "Failed to join document")])
  else
    match mapFind? st.docs documentId with
    | none => (st, sock, [Emit.toSender (Msg.errorMsg "Document not found")])
    | some document =>
      let userId := sock.user.userId
      if !(joinAccess document userId) then
        (st, sock, [Emit.toSender (Msg.errorMsg "Access denied")])
      else
        let rooms1 := roomJoin st.rooms documentId sock.id
        let sock1 : Socket := { sock with currentDocument := some documentId }
        let st1 : HState := { st with
          rooms := rooms1
          activeUsers := activeUsersAdd st.activeUsers documentId userId }
        if f.sAddFails then
          (st1, sock1, [Emit.toSender (Msg.errorMsg "Failed to join document")])
        else
          let st2 : HState := { st1 with
            presence := mapSet st1.presence documentId
              (setAdd ((mapFind? st1.presence documentId).getD []) userId) }
          if f.sMembersFails then
            (st2, sock1, [Emit.toSender (Msg.errorMsg "Failed to join document")])
          else
            let activeUserIds := (mapFind? st2.presence documentId).getD []
            let presenceData := Msg.userPresence documentId userId sock.user.username
              "joined" activeUserIds
            if f.publishFails then
              (st2, sock1, [Emit.toSender (Msg.errorMsg "Failed to join document")])
            else
              (st2, sock1,
                [Emit.publish "document:presence" presenceData,
                 Emit.toRoom documentId presenceData,
                 Emit.toSender (Msg.documentContent documentId document.content
                   document.title document.version)])

/-- `CollaborationHandler.handleDocumentLeave`.  Its `catch` block only
logs, so fault paths emit nothing. -/
def handleDocumentLeave (f : Faults) (st : HState) (sock : Socket)
    (documentId : String) : HState × Socket × List Emit :=
  let userId := sock.user.userId
  let rooms1 := roomLeave st.rooms documentId sock.id
  let sock1 : Socket := { sock with currentDocument := none }
  let st1 : HState := { st with
    rooms := rooms1
    activeUsers := activeUsersRemove st.activeUsers documentId userId }
  if f.sRemFails then
    (st1, sock1, [])
  else
    let st2 : HState := { st1 with
      presence := mapSet st1.presence documentId
        (setRemove ((mapFind? st1.presence documentId).getD []) userId) }
    if f.sMembersFails then
      (st2, sock1, [])
    else
      let activeUserIds := (mapFind? st2.presence documentId).getD []
      let presenceData := Msg.userPresence documentId userId sock.user.username
        "left" activeUserIds
      if f.publishFails then
        (st2, sock1, [])
      else
        (st2, sock1,
          [Emit.publish "document:presence" presenceData,
           Emit.toRoom documentId presenceData])

/-- `CollaborationHandler.handleDocumentEdit`.  Note the source has no
joined-to-the-document check: it goes straight from the document fetch to
the write-permission check, then mutates and saves. -/
def handleDocumentEdit (f : Faults) (now : Nat) (st : HState) (sock : Socket)
    (documentId : String) (content : String) : HState × Socket × List Emit :=
  if f.findFails then
    (st, sock, [Emit.toSender (Msg.errorMsg "Failed to update document")])
  else
    match mapFind? st.docs documentId with
    | none => (st, sock, [Emit.toSender (Msg.errorMsg "Document not found")])
    | some document =>
      let userId := sock.user.userId
      if !(editWriteAccess document userId) then
        (st, sock, [Emit.toSender (Msg.errorMsg "No write permission")])
      else
        let document1 : Document := { document with
          content := content,
          version := document.version + 1,
          lastEditedBy := some { userId := userId, username := sock.user.username,
                                 timestamp := now } }
        if f.saveFails then
          (st, sock, [Emit.toSender (Msg.errorMsg "Failed to update document")])
        else
          let st1 : HState := { st with docs := mapSet st.docs documentId document1 }
          let updateData := Msg.documentUpdate documentId content document1.version
            userId sock.user.username now sock.id
          if f.publishFails then
            (st1, sock, [Emit.toSender (Msg.errorMsg "Failed to update document")])
          else
            (st1, sock,
              [Emit.publish "document:updates" updateData,
               Emit.toRoomExceptSender documentId updateData])

/-- `CollaborationHandler.handleCursorPosition`: publish to the relay, then
broadcast to the rest of the room; its `catch` only logs. -/
def handleCursorPosition (f : Faults) (st : HState) (sock : Socket)
    (documentId : String) (position : Nat) : HState × Socket × List Emit :=
  let cursorData := Msg.cursorMove documentId sock.user.userId sock.user.username
    position sock.id
  if f.publishFails then
    (st, sock, [])
  else
    (st, sock,
      [Emit.publish "document:cursor" cursorData,
       Emit.toRoomExceptSender documentId cursorData])

/-- `CollaborationHandler.handleTypingIndicator`: a single room broadcast,
with no relay publish anywhere in its body. -/
def handleTypingIndicator (st : HState) (sock : Socket) (documentId : String)
    (isTyping : Bool) : HState × Socket × List Emit :=
  (st, sock,
    [Emit.toRoomExceptSender documentId
      (Msg.userTyping sock.user.userId sock.user.username isTyping)])

/-- `CollaborationHandler.handleDisconnection`: run the leave logic when the
socket was in a document room. -/
def handleDisconnection (f : Faults) (st : HState) (sock : Socket) :
    HState × Socket × List Emit :=
  match sock.currentDocument with
  | some documentId => handleDocumentLeave f st sock documentId
  | none => (st, sock, [])

/-- Local delivery semantics of one emission on the instance whose rooms are
`rooms` and whose sender socket is `senderId`: the socket ids that receive
the message. -/
def localReceivers (rooms : List (String × List String)) (senderId : String) :
    Emit → List String
  | Emit.toSender _ => [senderId]
  | Emit.toRoomExceptSender documentId _ =>
    (roomMembers rooms documentId).filter (fun sid => !(sid == senderId))
  | Emit.toRoom documentId _ => roomMembers rooms documentId
  | Emit.publish _ _ => []

/-- The `document:updates` subscription handler in
`setupRedisSubscriptions`: on any instance (the origin included, since Redis
echoes the message back), `io.to(data.documentId).except(data.socketId)`
receives the relayed update. -/
def relayUpdateReceivers (rooms : List (String × List String)) : Msg → List String
  | Msg.documentUpdate documentId _ _ _ _ _ socketId =>
    (roomMembers rooms documentId).filter (fun sid => !(sid == socketId))
  | _ => []

/-- Whether an emission trace contains a relay publish. -/
def hasPublish (es : List Emit) : Bool :=
  es.any (fun e => match e with
    | Emit.publish _ _ => true
    | _ => false)

/-- States reachable by running the socket event handlers of one instance,
starting from the constructor's empty `activeUsers` map, with arbitrary
sockets, inputs, external-store contents and fault injections. -/
inductive Reachable : HState → Prop where
  | init (rooms : List (String × List String)) (presence : List (String × List Nat))
      (docs : List (String × Document)) : Reachable ⟨[], rooms, presence, docs⟩
  | join (f : Faults) (sock : Socket) (documentId : String) {st : HState} :
      Reachable st → Reachable (handleDocumentJoin f st sock documentId).1
  | leave (f : Faults) (sock : Socket) (documentId : String) {st : HState} :
      Reachable st → Reachable (handleDocumentLeave f st sock documentId).1
  | edit (f : Faults) (now : Nat) (sock : Socket) (documentId content : String)
      {st : HState} :
      Reachable st → Reachable (handleDocumentEdit f now st sock documentId content).1
  | cursor (f : Faults) (sock : Socket) (documentId : String) (position : Nat)
      {st : HState} :
      Reachable st → Reachable (handleCursorPosition f st sock documentId position).1
  | typing (sock : Socket) (documentId : String) (isTyping : Bool) {st : HState} :
      Reachable st → Reachable (handleTypingIndicator st sock documentId isTyping).1
  | disconnect (f : Faults) (sock : Socket) {st : HState} :
      Reachable st → Reachable (handleDisconnection f st sock).1

/-- Well-formedness of the `activeUsers` map: every key present maps to a
non-empty user set. -/
def auWF (m : List (String × List Nat)) : Prop :=
  ∀ k s, mapFind? m k = some s → s ≠ []

/-! ### Concrete fixtures -/

/-- Owner of `d1`. -/
def uAlice : Identity := ⟨1, "alice"⟩

/-- Write-permission collaborator on `d1`. -/
def uBob : Identity := ⟨2, "bob"⟩

/-- Read-permission collaborator on `d1`. -/
def uCarol : Identity := ⟨3, "carol"⟩

/-- A private document owned by alice with a write and a read collaborator. -/
def docA : Document :=
  { title := "Design notes"
    content := "old"
    ownerId := 1
    ownerUsername := "alice"
    collaborators := [⟨2, "bob", "write"⟩, ⟨3, "carol", "read"⟩]
    version := 1 }

/-- A public document owned by bob. -/
def docB : Document :=
  { title := "Public pad"
    ownerId := 2
    ownerUsername := "bob"
    isPublic := true
    version := 1 }

def sockAlice : Socket := { id := "s1", user := uAlice }

def sockBob : Socket := { id := "s2", user := uBob }

def sockCarol : Socket := { id := "s3", user := uCarol }

/-- Fresh instance state: empty maps, both documents in the store. -/
def stA : HState :=
  { activeUsers := []
    rooms := []
    presence := []
    docs := [(("d1" : String), docA), (("d2" : String), docB)] }

/-- A user with no grant at all on `d1`. -/
def uDave : Identity := ⟨4, "dave"⟩

def sockDave : Socket := { id := "s4", user := uDave }

/-- Fault schedule where only the Redis presence-set add rejects. -/
def faultSAdd : Faults := { sAddFails := true }

/-- Fault schedule where only the relay publish rejects. -/
def faultPublish : Faults := { publishFails := true }

/-- Alice joins `d1`, then (without leaving) joins `d2`. -/
def joinStep1 : HState × Socket × List Emit :=
  handleDocumentJoin noFaults stA sockAlice "d1"

def joinStep2 : HState × Socket × List Emit :=
  handleDocumentJoin noFaults joinStep1.1 joinStep1.2.1 "d2"

/-- Rooms of a peer instance holding the sender's id next to another socket
(as if socket ids collided across instances — the worst case for echo). -/
def roomsX : List (String × List String) := [(("d1" : String), ["s1", "s9"])]

/-- `stA` with alice and a second socket in the `d1` room. -/
def stC6 : HState := { stA with rooms := roomsX }

/-! ### Association-list and set lemmas -/

theorem mapFind?_set_self {α : Type} (m : List (String × α)) (k : String) (v : α) :
    mapFind? (mapSet m k v) k = some v := by
  induction m with
  | nil => simp [mapSet, mapFind?]
  | cons p rest ih =>
    obtain ⟨k2, w⟩ := p
    by_cases h : k2 = k
    · subst h
      simp [mapSet, mapFind?]
    · simp [mapSet, mapFind?, h, ih]

theorem mapFind?_set_ne {α : Type} (m : List (String × α)) (k k2 : String) (v : α)
    (h : k2 ≠ k) : mapFind? (mapSet m k v) k2 = mapFind? m k2 := by
  induction m with
  | nil => simp [mapSet, mapFind?, Ne.symm h]
  | cons p rest ih =>
    obtain ⟨k3, w⟩ := p
    by_cases h3 : k3 = k
    · subst h3
      simp [mapSet, mapFind?, Ne.symm h]
    · simp [mapSet, mapFind?, h3, ih]

theorem mapFind?_delete_self {α : Type} (m : List (String × α)) (k : String) :
    mapFind? (mapDelete m k) k = none := by
  induction m with
  | nil => simp [mapDelete, mapFind?]
  | cons p rest ih =>
    obtain ⟨k2, w⟩ := p
    by_cases h : k2 = k
    · simp [mapDelete, mapFind?, h, ih]
    · simp [mapDelete, mapFind?, h, ih]

theorem mapFind?_delete_ne {α : Type} (m : List (String × α)) (k k2 : String)
    (h : k2 ≠ k) : mapFind? (mapDelete m k) k2 = mapFind? m k2 := by
  induction m with
  | nil => simp [mapDelete, mapFind?]
  | cons p rest ih =>
    obtain ⟨k3, w⟩ := p
    by_cases h3 : k3 = k
    · subst h3
      simp [mapDelete, mapFind?, Ne.symm h, ih]
    · simp [mapDelete, mapFind?, h3, ih]

theorem setAdd_ne_nil {α : Type} [BEq α] (s : List α) (x : α) :
    setAdd s x ≠ [] := by
  unfold setAdd
  cases s with
  | nil => simp
  | cons y t =>
    by_cases h : (y :: t).contains x <;> simp [h]

theorem setAdd_contains_self {α : Type} [BEq α] [LawfulBEq α] (s : List α) (x : α) :
    (setAdd s x).contains x = true := by
  unfold setAdd
  by_cases h : s.contains x <;> simp_all

theorem activeUsersAdd_find_ne (m : List (String × List Nat)) (documentId k : String)
    (userId : Nat) (h : k ≠ documentId) :
    mapFind? (activeUsersAdd m documentId userId) k = mapFind? m k := by
  unfold activeUsersAdd
  by_cases h1 : (mapFind? m documentId).isSome <;>
    simp [h1, mapFind?_set_ne _ _ _ _ h]

theorem activeUsersRemove_find_ne (m : List (String × List Nat)) (documentId k : String)
    (userId : Nat) (h : k ≠ documentId) :
    mapFind? (activeUsersRemove m documentId userId) k = mapFind? m k := by
  unfold activeUsersRemove
  cases hf : mapFind? m documentId with
  | none => rfl
  | some s =>
    by_cases he : (setRemove s userId).isEmpty <;>
      simp [he, mapFind?_set_ne _ _ _ _ h, mapFind?_delete_ne _ _ _ h]

theorem auWF_activeUsersAdd (m : List (String × List Nat)) (documentId : String)
    (userId : Nat) (hm : auWF m) : auWF (activeUsersAdd m documentId userId) := by
  intro k s hk
  by_cases h : k = documentId
  · subst h
    unfold activeUsersAdd at hk
    rw [mapFind?_set_self] at hk
    cases hk
    exact setAdd_ne_nil _ _
  · rw [activeUsersAdd_find_ne _ _ _ _ h] at hk
    exact hm k s hk

theorem auWF_activeUsersRemove (m : List (String × List Nat)) (documentId : String)
    (userId : Nat) (hm : auWF m) : auWF (activeUsersRemove m documentId userId) := by
  intro k s hk
  by_cases h : k = documentId
  · subst h
    unfold activeUsersRemove at hk
    cases hf : mapFind? m k with
    | none =>
      rw [hf] at hk
      exact hm k s hk
    | some s0 =>
      rw [hf] at hk
      simp only at hk
      split at hk
      · rw [mapFind?_delete_self] at hk
        cases hk
      · rename_i he
        rw [mapFind?_set_self] at hk
        cases hk
        intro hnil
        rw [hnil] at he
        simp at he
  · rw [activeUsersRemove_find_ne _ _ _ _ h] at hk
    exact hm k s hk

/-! ### Shape of each handler's effect on the `activeUsers` map -/

theorem join_activeUsers (f : Faults) (st : HState) (sock : Socket)
    (documentId : String) :
    (handleDocumentJoin f st sock documentId).1.activeUsers = st.activeUsers ∨
    (handleDocumentJoin f st sock documentId).1.activeUsers =
      activeUsersAdd st.activeUsers documentId sock.user.userId := by
  unfold handleDocumentJoin
  dsimp only
  split
  · exact Or.inl rfl
  split
  · exact Or.inl rfl
  split
  · exact Or.inl rfl
  split
  · exact Or.inr rfl
  split
  · exact Or.inr rfl
  split
  · exact Or.inr rfl
  exact Or.inr rfl

theorem leave_activeUsers (f : Faults) (st : HState) (sock : Socket)
    (documentId : String) :
    (handleDocumentLeave f st sock documentId).1.activeUsers =
      activeUsersRemove st.activeUsers documentId sock.user.userId := by
  unfold handleDocumentLeave
  dsimp only
  split
  · rfl
  split
  · rfl
  split
  · rfl
  rfl

theorem edit_activeUsers (f : Faults) (now : Nat) (st : HState) (sock : Socket)
    (documentId content : String) :
    (handleDocumentEdit f now st sock documentId content).1.activeUsers =
      st.activeUsers := by
  unfold handleDocumentEdit
  dsimp only
  split
  · rfl
  split
  · rfl
  split
  · rfl
  split
  · rfl
  split
  · rfl
  rfl

theorem cursor_state (f : Faults) (st : HState) (sock : Socket)
    (documentId : String) (position : Nat) :
    (handleCursorPosition f st sock documentId position).1 = st := by
  unfold handleCursorPosition
  split <;> rfl

/-- Docs component of a successful edit: the stored document gets the new
content, a version bump, and the editor identity. -/
theorem edit_success_docs (now : Nat) (st : HState) (sock : Socket)
    (documentId content : String) (document : Document)
    (hfind : mapFind? st.docs documentId = some document)
    (hacc : editWriteAccess document sock.user.userId = true) :
    (handleDocumentEdit noFaults now st sock documentId content).1.docs =
      mapSet st.docs documentId
        { document with
          content := content
          version := document.version + 1
          lastEditedBy := some ⟨sock.user.userId, sock.user.username, now⟩ } := by
  simp [handleDocumentEdit, hfind, hacc, noFaults]

/-! ### Claim theorems -/

/-- C10: in every reachable state of one instance's local active-users map,
every documentId present as a key maps to a non-empty set of user ids: the
join handler creates the entry before adding a member, and the leave handler
deletes the entry whenever removing a member empties its set. -/
theorem c10_activeUsers_nonempty (st : HState) (h : Reachable st) :
    auWF st.activeUsers := by
  induction h with
  | init rooms presence docs =>
    intro k s hk
    simp [mapFind?] at hk
  | join f sock documentId hst ih =>
    rcases join_activeUsers f _ sock documentId with heq | heq
    · rw [heq]; exact ih
    · rw [heq]; exact auWF_activeUsersAdd _ _ _ ih
  | leave f sock documentId hst ih =>
    rw [leave_activeUsers]
    exact auWF_activeUsersRemove _ _ _ ih
  | edit f now sock documentId content hst ih =>
    rw [edit_activeUsers]
    exact ih
  | cursor f sock documentId position hst ih =>
    rw [cursor_state]
    exact ih
  | typing sock documentId isTyping hst ih =>
    exact ih
  | disconnect f sock hst ih =>
    unfold handleDisconnection
    split
    · rw [leave_activeUsers]
      exact auWF_activeUsersRemove _ _ _ ih
    · exact ih

/-- Witness for C10 at a concrete reachable state: after alice joins `d2`
from a fresh instance, the invariant holds. -/
theorem c10_activeUsers_nonempty_witness :
    auWF (handleDocumentJoin noFaults
      ⟨[], [], [], [(("d2" : String), docB)]⟩ sockAlice "d2").1.activeUsers :=
  c10_activeUsers_nonempty _
    (Reachable.join noFaults sockAlice "d2"
      (Reachable.init [] [] [(("d2" : String), docB)]))

/-- C4: an edit is persisted only for the owner or a write/admin
collaborator; any other identity (a read collaborator included) gets the
`No write permission` error and the state — content, version,
`lastEditedBy` — is left untouched. -/
theorem c4_edit_requires_write_access (f : Faults) (now : Nat) (st : HState)
    (sock : Socket) (documentId content : String) (document : Document)
    (hff : f.findFails = false)
    (hfind : mapFind? st.docs documentId = some document)
    (hacc : editWriteAccess document sock.user.userId = false) :
    handleDocumentEdit f now st sock documentId content =
      (st, sock, [Emit.toSender (Msg.errorMsg "No write permission")]) := by
  simp [handleDocumentEdit, hff, hfind, hacc]

/-- Witness for C4: carol, a `read` collaborator on `d1`, attempts an edit
and gets the error with no state change. -/
theorem c4_edit_requires_write_access_witness :
    handleDocumentEdit noFaults 3 stA sockCarol "d1" "oops" =
      (stA, sockCarol, [Emit.toSender (Msg.errorMsg "No write permission")]) :=
  c4_edit_requires_write_access noFaults 3 stA sockCarol "d1" "oops" docA
    (by decide) (by decide) (by decide)

/-- C5: a join of a missing document fails with `Document not found`; a join
of an existing document by an identity that is not owner, not a collaborator,
and with the document not public fails with `Access denied`; in both cases
the state (local membership, presence) and the socket are unchanged. -/
theorem c5_join_not_found_or_denied (f : Faults) (st : HState) (sock : Socket)
    (documentId : String) (hff : f.findFails = false) :
    (mapFind? st.docs documentId = none →
      handleDocumentJoin f st sock documentId =
        (st, sock, [Emit.toSender (Msg.errorMsg "Document not found")])) ∧
    (∀ document, mapFind? st.docs documentId = some document →
      joinAccess document sock.user.userId = false →
      handleDocumentJoin f st sock documentId =
        (st, sock, [Emit.toSender (Msg.errorMsg "Access denied")])) := by
  constructor
  · intro h
    simp [handleDocumentJoin, hff, h]
  · intro d h hacc
    simp [handleDocumentJoin, hff, h, hacc]

/-- Witness for C5: dave (no grant) joining the missing `d9` gets
`Document not found`; dave joining the private `d1` gets `Access denied`. -/
theorem c5_join_not_found_or_denied_witness :
    handleDocumentJoin noFaults stA sockDave "d9" =
      (stA, sockDave, [Emit.toSender (Msg.errorMsg "Document not found")]) ∧
    handleDocumentJoin noFaults stA sockDave "d1" =
      (stA, sockDave, [Emit.toSender (Msg.errorMsg "Access denied")]) :=
  ⟨(c5_join_not_found_or_denied noFaults stA sockDave "d9" (by decide)).1 (by decide),
   (c5_join_not_found_or_denied noFaults stA sockDave "d1" (by decide)).2 docA
     (by decide) (by decide)⟩

/-- C8 (amended): the cursor handler performs the dual fan-out (relay
publish plus local room broadcast), but the typing handler performs only the
local room broadcast — it never publishes to the relay. -/
theorem c8_cursor_dual_typing_local (st : HState) (sock : Socket)
    (documentId : String) (position : Nat) (isTyping : Bool) :
    handleCursorPosition noFaults st sock documentId position =
      (st, sock,
        [Emit.publish "document:cursor"
          (Msg.cursorMove documentId sock.user.userId sock.user.username
            position sock.id),
         Emit.toRoomExceptSender documentId
          (Msg.cursorMove documentId sock.user.userId sock.user.username
            position sock.id)]) ∧
    handleTypingIndicator st sock documentId isTyping =
      (st, sock,
        [Emit.toRoomExceptSender documentId
          (Msg.userTyping sock.user.userId sock.user.username isTyping)]) :=
  ⟨rfl, rfl⟩

/-- Counterexample for C8 as stated: a typing event produces exactly one
local broadcast and no relay publish at all, so peer instances never see it. -/
theorem c8_counterexample :
    handleTypingIndicator stA sockAlice "d1" true =
      (stA, sockAlice,
        [Emit.toRoomExceptSender "d1" (Msg.userTyping 1 "alice" true)]) ∧
    hasPublish (handleTypingIndicator stA sockAlice "d1" true).2.2 = false := by
  decide

/-- Counterexample for C1 as stated: alice's socket is not joined to `d1`
(its `currentDocument` is `none` and it is in no room), yet her edit is
accepted — the store is mutated and the update is broadcast, with no
`NotJoined`-style error anywhere. -/
theorem c1_counterexample :
    sockAlice.currentDocument = none ∧
    roomMembers stA.rooms "d1" = [] ∧
    (handleDocumentEdit noFaults 5 stA sockAlice "d1" "hello").1.docs ≠ stA.docs ∧
    (handleDocumentEdit noFaults 5 stA sockAlice "d1" "hello").2.2 =
      [Emit.publish "document:updates"
        (Msg.documentUpdate "d1" "hello" 2 1 "alice" 5 "s1"),
       Emit.toRoomExceptSender "d1"
        (Msg.documentUpdate "d1" "hello" 2 1 "alice" 5 "s1")] := by
  decide

/-- C1 (amended): the edit handler performs no joined-state check at all:
whenever the document exists and the identity has write access, the edit is
persisted and broadcast even if the connection is not joined to the document
(`currentDocument` differs and the socket is not in the room); no
`NotJoined` error path exists in the handler. -/
theorem c1_edit_ignores_join_state (now : Nat) (st : HState) (sock : Socket)
    (documentId content : String) (document : Document)
    (hfind : mapFind? st.docs documentId = some document)
    (hacc : editWriteAccess document sock.user.userId = true)
    (hcur : sock.currentDocument ≠ some documentId)
    (hroom : sock.id ∉ roomMembers st.rooms documentId) :
    handleDocumentEdit noFaults now st sock documentId content =
      ({ st with docs := (mapSet st.docs documentId
          { document with
            content := content
            version := document.version + 1
            lastEditedBy := some ⟨sock.user.userId, sock.user.username, now⟩ }) },
       sock,
       [Emit.publish "document:updates"
          (Msg.documentUpdate documentId content (document.version + 1)
            sock.user.userId sock.user.username now sock.id),
        Emit.toRoomExceptSender documentId
          (Msg.documentUpdate documentId content (document.version + 1)
            sock.user.userId sock.user.username now sock.id)]) := by
  simp [handleDocumentEdit, hfind, hacc, noFaults]

/-- Witness for the amended C1: alice edits `d1` while joined to nothing. -/
theorem c1_edit_ignores_join_state_witness :
    handleDocumentEdit noFaults 5 stA sockAlice "d1" "hello" =
      ({ stA with docs := (mapSet stA.docs "d1"
          { docA with
            content := "hello"
            version := docA.version + 1
            lastEditedBy := some ⟨sockAlice.user.userId, sockAlice.user.username, 5⟩ }) },
       sockAlice,
       [Emit.publish "document:updates"
          (Msg.documentUpdate "d1" "hello" (docA.version + 1)
            sockAlice.user.userId sockAlice.user.username 5 sockAlice.id),
        Emit.toRoomExceptSender "d1"
          (Msg.documentUpdate "d1" "hello" (docA.version + 1)
            sockAlice.user.userId sockAlice.user.username 5 sockAlice.id)]) :=
  c1_edit_ignores_join_state 5 stA sockAlice "d1" "hello" docA
    (by decide) (by decide) (by decide) (by decide)

/-- Counterexample for C2 as stated: carol joins `d1` and the presence-store
write fails; afterwards her socket still has `currentDocument = "d1"` (not
rolled back to `Unjoined`) and the local membership map was not restored. -/
theorem c2_counterexample :
    (handleDocumentJoin faultSAdd stA sockCarol "d1").2.1.currentDocument =
      some "d1" ∧
    (handleDocumentJoin faultSAdd stA sockCarol "d1").1.activeUsers ≠
      stA.activeUsers ∧
    (handleDocumentJoin faultSAdd stA sockCarol "d1").2.2 =
      [Emit.toSender (Msg.errorMsg "Failed to join document")] := by
  decide

/-- C2 (amended): when the presence-store write fails during a join, the
handler reports the generic `Failed to join document` error to the sender,
but nothing is rolled back: the socket keeps `currentDocument = documentId`,
stays in the room, the local membership map keeps the added user, and the
presence store is left unwritten. -/
theorem c2_presence_failure_keeps_membership (f : Faults) (st : HState)
    (sock : Socket) (documentId : String) (document : Document)
    (hff : f.findFails = false)
    (hsa : f.sAddFails = true)
    (hfind : mapFind? st.docs documentId = some document)
    (hacc : joinAccess document sock.user.userId = true) :
    handleDocumentJoin f st sock documentId =
      ({ st with
          rooms := roomJoin st.rooms documentId sock.id
          activeUsers := activeUsersAdd st.activeUsers documentId sock.user.userId },
       { sock with currentDocument := some documentId },
       [Emit.toSender (Msg.errorMsg "Failed to join document")]) := by
  simp [handleDocumentJoin, hff, hsa, hfind, hacc]

/-- Witness for the amended C2: carol's failed join of `d1` keeps the
partial membership. -/
theorem c2_presence_failure_keeps_membership_witness :
    handleDocumentJoin faultSAdd stA sockCarol "d1" =
      ({ stA with
          rooms := roomJoin stA.rooms "d1" sockCarol.id
          activeUsers := activeUsersAdd stA.activeUsers "d1" sockCarol.user.userId },
       { sockCarol with currentDocument := some "d1" },
       [Emit.toSender (Msg.errorMsg "Failed to join document")]) :=
  c2_presence_failure_keeps_membership faultSAdd stA sockCarol "d1" docA
    (by decide) (by decide) (by decide) (by decide)

/-- Counterexample for C7 as stated: bob's edit of `d1` persists, then the
relay publish fails; the handler emits a `Failed to update document` error
to bob (not "logged only") and the local fan-out never happens. -/
theorem c7_counterexample :
    (handleDocumentEdit faultPublish 7 stA sockBob "d1" "x").1.docs ≠
      stA.docs ∧
    (handleDocumentEdit faultPublish 7 stA sockBob "d1" "x").2.2 =
      [Emit.toSender (Msg.errorMsg "Failed to update document")] := by
  decide

/-- C7 (amended): when persistence succeeds but the relay publish fails, the
edit stays persisted (version bumped, `lastEditedBy` recorded), but the
failure is surfaced to the editing client as a `Failed to update document`
error and the synchronous local fan-out is skipped. -/
theorem c7_publish_failure_surfaced (f : Faults) (now : Nat) (st : HState)
    (sock : Socket) (documentId content : String) (document : Document)
    (hff : f.findFails = false)
    (hsf : f.saveFails = false)
    (hpf : f.publishFails = true)
    (hfind : mapFind? st.docs documentId = some document)
    (hacc : editWriteAccess document sock.user.userId = true) :
    handleDocumentEdit f now st sock documentId content =
      ({ st with docs := (mapSet st.docs documentId
          { document with
            content := content
            version := document.version + 1
            lastEditedBy := some ⟨sock.user.userId, sock.user.username, now⟩ }) },
       sock,
       [Emit.toSender (Msg.errorMsg "Failed to update document")]) := by
  simp [handleDocumentEdit, hff, hsf, hpf, hfind, hacc]

/-- Witness for the amended C7: bob's edit with a failing relay publish. -/
theorem c7_publish_failure_surfaced_witness :
    handleDocumentEdit faultPublish 7 stA sockBob "d1" "x" =
      ({ stA with docs := (mapSet stA.docs "d1"
          { docA with
            content := "x"
            version := docA.version + 1
            lastEditedBy := some ⟨sockBob.user.userId, sockBob.user.username, 7⟩ }) },
       sockBob,
       [Emit.toSender (Msg.errorMsg "Failed to update document")]) :=
  c7_publish_failure_surfaced faultPublish 7 stA sockBob "d1" "x" docA
    (by decide) (by decide) (by decide) (by decide) (by decide)

/-- Counterexample for C3 as stated: alice joins `d1`, then joins `d2`
without any Leave steps being run for `d1`: her user id is still in `d1`'s
local membership and presence set and her socket is still in both rooms, so
membership is silently duplicated across two documents. -/
theorem c3_counterexample :
    joinStep2.2.1.currentDocument = some "d2" ∧
    mapFind? joinStep2.1.activeUsers "d1" = some [1] ∧
    mapFind? joinStep2.1.presence "d1" = some [1] ∧
    roomMembers joinStep2.1.rooms "d1" = ["s1"] ∧
    roomMembers joinStep2.1.rooms "d2" = ["s1"] := by
  decide

/-- C3 (amended): a join issued while the connection is joined to a
different document merely overwrites `currentDocument` (so that field holds
at most one document), but performs none of the Leave steps for the prior
document: the prior document's local membership entry, presence-store entry
and room membership are all left untouched. -/
theorem c3_join_overwrites_without_leave (st : HState) (sock : Socket)
    (priorDoc documentId : String) (document : Document)
    (hfind : mapFind? st.docs documentId = some document)
    (hacc : joinAccess document sock.user.userId = true)
    (hjoined : sock.currentDocument = some priorDoc)
    (hne : priorDoc ≠ documentId) :
    (handleDocumentJoin noFaults st sock documentId).2.1.currentDocument =
      some documentId ∧
    mapFind? (handleDocumentJoin noFaults st sock documentId).1.activeUsers
      priorDoc = mapFind? st.activeUsers priorDoc ∧
    mapFind? (handleDocumentJoin noFaults st sock documentId).1.presence
      priorDoc = mapFind? st.presence priorDoc ∧
    roomMembers (handleDocumentJoin noFaults st sock documentId).1.rooms
      priorDoc = roomMembers st.rooms priorDoc := by
  have hau := fun (m : List (String × List Nat)) (u : Nat) =>
    activeUsersAdd_find_ne m documentId priorDoc u hne
  have hp := fun (m : List (String × List Nat)) (v : List Nat) =>
    mapFind?_set_ne m documentId priorDoc v hne
  have hr := fun (m : List (String × List String)) (v : List String) =>
    mapFind?_set_ne m documentId priorDoc v hne
  refine ⟨?_, ?_, ?_, ?_⟩ <;>
    simp [handleDocumentJoin, hfind, hacc, noFaults, roomJoin, roomMembers,
      hau, hp, hr]

/-- Witness for the amended C3: alice, already joined to `d1`, joins the
public `d2`; `d1`'s membership survives untouched. -/
theorem c3_join_overwrites_without_leave_witness :
    (handleDocumentJoin noFaults joinStep1.1 joinStep1.2.1 "d2").2.1.currentDocument =
      some "d2" ∧
    mapFind? (handleDocumentJoin noFaults joinStep1.1 joinStep1.2.1 "d2").1.activeUsers
      "d1" = mapFind? joinStep1.1.activeUsers "d1" ∧
    mapFind? (handleDocumentJoin noFaults joinStep1.1 joinStep1.2.1 "d2").1.presence
      "d1" = mapFind? joinStep1.1.presence "d1" ∧
    roomMembers (handleDocumentJoin noFaults joinStep1.1 joinStep1.2.1 "d2").1.rooms
      "d1" = roomMembers joinStep1.1.rooms "d1" :=
  c3_join_overwrites_without_leave joinStep1.1 joinStep1.2.1 "d1" "d2" docB
    (by decide) (by decide) (by decide) (by decide)

/-- C6: for a successful edit, the emitted messages are exactly a relay
publish and a sender-excluding room broadcast; the sender is not among the
local receivers, and on any instance's rooms the relay subscription handler
(`io.to(documentId).except(socketId)`) never delivers the update back to
the originating socket id. -/
theorem c6_no_self_echo (now : Nat) (st : HState) (sock : Socket)
    (documentId content : String) (document : Document)
    (hfind : mapFind? st.docs documentId = some document)
    (hacc : editWriteAccess document sock.user.userId = true) :
    (handleDocumentEdit noFaults now st sock documentId content).2.2 =
      [Emit.publish "document:updates"
        (Msg.documentUpdate documentId content (document.version + 1)
          sock.user.userId sock.user.username now sock.id),
       Emit.toRoomExceptSender documentId
        (Msg.documentUpdate documentId content (document.version + 1)
          sock.user.userId sock.user.username now sock.id)] ∧
    sock.id ∉ localReceivers st.rooms sock.id
      (Emit.toRoomExceptSender documentId
        (Msg.documentUpdate documentId content (document.version + 1)
          sock.user.userId sock.user.username now sock.id)) ∧
    (∀ peerRooms : List (String × List String),
      sock.id ∉ relayUpdateReceivers peerRooms
        (Msg.documentUpdate documentId content (document.version + 1)
          sock.user.userId sock.user.username now sock.id)) := by
  refine ⟨?_, ?_, ?_⟩
  · simp [handleDocumentEdit, hfind, hacc, noFaults]
  · simp [localReceivers, List.mem_filter]
  · intro peerRooms
    simp [relayUpdateReceivers, List.mem_filter]

/-- Witness for C6: alice edits `d1` in a room also holding `s9`; she is
excluded locally and by the relay handler over the peer rooms `roomsX`. -/
theorem c6_no_self_echo_witness :
    (handleDocumentEdit noFaults 3 stC6 sockAlice "d1" "hi").2.2 =
      [Emit.publish "document:updates"
        (Msg.documentUpdate "d1" "hi" (docA.version + 1)
          sockAlice.user.userId sockAlice.user.username 3 sockAlice.id),
       Emit.toRoomExceptSender "d1"
        (Msg.documentUpdate "d1" "hi" (docA.version + 1)
          sockAlice.user.userId sockAlice.user.username 3 sockAlice.id)] ∧
    sockAlice.id ∉ localReceivers stC6.rooms sockAlice.id
      (Emit.toRoomExceptSender "d1"
        (Msg.documentUpdate "d1" "hi" (docA.version + 1)
          sockAlice.user.userId sockAlice.user.username 3 sockAlice.id)) ∧
    sockAlice.id ∉ relayUpdateReceivers roomsX
      (Msg.documentUpdate "d1" "hi" (docA.version + 1)
        sockAlice.user.userId sockAlice.user.username 3 sockAlice.id) := by
  have h := c6_no_self_echo 3 stC6 sockAlice "d1" "hi" docA
    (by decide) (by decide)
  exact ⟨h.1, h.2.1, h.2.2 roomsX⟩

/-- C9: two successive successful edits of the same document, observed in
store-write order, record strictly increasing versions: the first stores
`version + 1`, the second `version + 2`. -/
theorem c9_edit_version_monotonic (st : HState) (sock1 sock2 : Socket)
    (documentId content1 content2 : String) (now1 now2 : Nat)
    (document : Document)
    (hfind : mapFind? st.docs documentId = some document)
    (h1 : editWriteAccess document sock1.user.userId = true)
    (h2 : editWriteAccess document sock2.user.userId = true) :
    (mapFind? (handleDocumentEdit noFaults now1 st sock1 documentId
        content1).1.docs documentId).map Document.version =
      some (document.version + 1) ∧
    (mapFind? (handleDocumentEdit noFaults now2
        (handleDocumentEdit noFaults now1 st sock1 documentId content1).1
        sock2 documentId content2).1.docs documentId).map Document.version =
      some (document.version + 2) ∧
    document.version + 1 < document.version + 2 := by
  have f1 : mapFind?
      (handleDocumentEdit noFaults now1 st sock1 documentId content1).1.docs
      documentId = some
        { document with
          content := content1
          version := document.version + 1
          lastEditedBy := some ⟨sock1.user.userId, sock1.user.username, now1⟩ } := by
    rw [edit_success_docs now1 st sock1 documentId content1 document hfind h1,
      mapFind?_set_self]
  have f2 : mapFind? (handleDocumentEdit noFaults now2
      (handleDocumentEdit noFaults now1 st sock1 documentId content1).1 sock2
      documentId content2).1.docs documentId = some
        { document with
          content := content2
          version := document.version + 2
          lastEditedBy := some ⟨sock2.user.userId, sock2.user.username, now2⟩ } := by
    rw [edit_success_docs now2 _ sock2 documentId content2 _ f1 h2,
      mapFind?_set_self]
  refine ⟨?_, ?_, ?_⟩
  · rw [f1]
    rfl
  · rw [f2]
    rfl
  · omega

/-- Witness for C9: alice then bob edit `d1`; stored versions go 2 then 3. -/
theorem c9_edit_version_monotonic_witness :
    (mapFind? (handleDocumentEdit noFaults 1 stA sockAlice "d1"
        "a").1.docs "d1").map Document.version = some (docA.version + 1) ∧
    (mapFind? (handleDocumentEdit noFaults 2
        (handleDocumentEdit noFaults 1 stA sockAlice "d1" "a").1
        sockBob "d1" "b").1.docs "d1").map Document.version =
      some (docA.version + 2) ∧
    docA.version + 1 < docA.version + 2 :=
  c9_edit_version_monotonic stA sockAlice sockBob "d1" "a" "b" 1 2 docA
    (by decide) (by decide) (by decide)

end Collab
